import Mathlib

/-!
Shallow embedding of the chat-server protocol engine (`src/stream.py`,
class `ChatServer`) together with proofs about the behaviour its
specification describes.

Python dictionaries are modelled as insertion-ordered association lists
(`dictSet` overwrites in place, appends fresh keys at the end, exactly as
CPython dicts do).  Python exceptions are modelled with `Except PyErr`.
Network writes always succeed in the model (the code swallows transport
errors at every write site, so a failed write is observationally a no-op
plus a log line); each performed write is recorded as a `Write` value.
Statuses are kept as the raw strings the source compares against.
-/

/-! ## Python dictionaries as association lists -/

/-- Membership test for a string-keyed Python dict. -/
def dictHasKey {α : Type} (d : List (String × α)) (k : String) : Bool :=
  d.any (fun p => p.1 == k)

/-- Lookup in a string-keyed Python dict. -/
def dictGet? {α : Type} (d : List (String × α)) (k : String) : Option α :=
  (d.find? (fun p => p.1 == k)).map (fun p => p.2)

/-- Assignment `d[k] = v` of a Python dict: overwrite in place if the key is
present, append at the end otherwise. -/
def dictSet {α : Type} (d : List (String × α)) (k : String) (v : α) : List (String × α) :=
  if dictHasKey d k then d.map (fun p => if p.1 == k then (k, v) else p)
  else d ++ [(k, v)]

/-- Key list of a Python dict, in insertion order. -/
def dictKeys {α : Type} (d : List (String × α)) : List String :=
  d.map (fun p => p.1)

/-! ## Data model -/

/-- One registered client: the session dict `{"writer": cw, "status": s}` of
`register_client` / `join_chatroom` / `add_chatroom`.  The stream writer is an
opaque handle, modelled by a natural number. -/
structure Session where
  writer : Nat
  status : String
deriving DecidableEq, Repr

/-- A value stored in a room dict.  The code normally stores session dicts,
but `close_client` and `send_error_and_close` also store raw status strings
under the key `"status"` (they index `client_list` by client id), so a room
value is either a session or a bare string. -/
inductive Entry where
  | session (s : Session)
  | str (v : String)
deriving DecidableEq, Repr

/-- A room: Python dict from client id to stored entry. -/
abbrev Room := List (String × Entry)

/-- The registry `self.client_list`: Python dict from room name to room. -/
abbrev ClientList := List (String × Room)

/-- The Python exceptions the modelled code can raise. -/
inductive PyErr where
  | keyError (key : String)
  | typeError (msg : String)
  | runtimeError (msg : String)
deriving DecidableEq, Repr

/-- Rendering of an exception as it appears interpolated into an f-string
(`str(KeyError(k))` is the quoted key; other exceptions render their
message). -/
def pyErrMsg : PyErr → String
  | .keyError k => "\x27" ++ k ++ "\x27"
  | .typeError m => m
  | .runtimeError m => m

/-- One performed network write: target writer handle and the bytes written. -/
abbrev Write := Nat × String

/-- The mutable attributes set up by `ChatServer.__init__`. -/
structure ServerState where
  use_ssl : Option Bool
  cert_path : Option String
  host : String
  port : String
  client_list : ClientList
  client_id_counter : Nat
  client_count : Int
  max_clients : Nat
  max_message_length : Nat
deriving DecidableEq, Repr

/-- `ChatServer.ALLOWED_SERVER_COMMANDS`. -/
def ALLOWED_SERVER_COMMANDS : List String :=
  ["NEW", "LIST", "JOIN", "HELLO", "SEND", "PAUSE", "QUIT", "ERROR", "FROM", "MSG"]

/-- `ChatServer.__init__` (stream.py lines 56-94): raises `RuntimeError` when
`use_ssl is not None and cert_path is None`, otherwise stores the
configuration with an empty `client_list`, counter 1 and count 0. -/
def chatServerInit (host port : String) (max_clients max_message_length : Nat)
    (use_ssl : Option Bool) (cert_path : Option String) : Except PyErr ServerState :=
  if use_ssl.isSome && cert_path.isNone then
    .error (.runtimeError "You cannot use SSL without providing a certfiicate by path.")
  else
    .ok { use_ssl := use_ssl
          cert_path := cert_path
          host := host
          port := port
          client_list := []
          client_id_counter := 1
          client_count := 0
          max_clients := max_clients
          max_message_length := max_message_length }

/-! ## Write primitives -/

/-- `send_to_client` (lines 734-752): writes the message; every transport
failure is caught and swallowed, so in the model the write simply happens. -/
def send_to_client (message_data : String) (client_writer : Nat) : List Write :=
  [(client_writer, message_data)]

/-- `send_error_to_writer` (lines 754-766): prefixes `ERROR ` and writes. -/
def send_error_to_writer (message_data : String) (cw : Nat) : List Write :=
  send_to_client ("ERROR " ++ message_data) cw

/-- `send_error_to_client` (lines 768-784): looks the target writer up as
`client_list[chat_room][client_id]["writer"]`; a missing room or client
raises `KeyError`, a raw-string entry raises `TypeError`. -/
def send_error_to_client (st : ServerState) (message_data chat_room client_id : String) :
    Except PyErr (List Write) :=
  let full_message := "ERROR " ++ chat_room ++ ":" ++ client_id ++ " " ++ message_data
  match dictGet? st.client_list chat_room with
  | none => .error (.keyError chat_room)
  | some room =>
    match dictGet? room client_id with
    | none => .error (.keyError client_id)
    | some (.str _) => .error (.typeError "string indices must be integers")
    | some (.session s) => .ok (send_to_client full_message s.writer)

/-- Helper for the `self.client_list[client_id]["status"] = v` pattern of
`send_error_and_close` and `close_client`: `client_list` is keyed by room
name, so this stores the raw string `v` under the key `"status"` of the room
whose NAME equals `client_id` (when such a room exists). -/
def setRoomRawStatus (cl : ClientList) (client_id v : String) : ClientList :=
  match dictGet? cl client_id with
  | none => cl
  | some room => dictSet cl client_id (dictSet room "status" (.str v))

/-- `send_error_and_close` (lines 702-732): marks `client_list[client_id]`
(a ROOM, due to the flat-indexing slip) with raw statuses `"ERROR"` then
`"CLOSED"`, writes the error text, and decrements `client_count`. -/
def send_error_and_close (st : ServerState) (cw : Nat) (error_message client_id : String) :
    ServerState × List Write :=
  let cl1 := setRoomRawStatus st.client_list client_id "ERROR"
  let ws := [(cw, error_message)]
  let cl2 := setRoomRawStatus cl1 client_id "CLOSED"
  ({ st with client_list := cl2, client_count := st.client_count - 1 }, ws)

/-! ## Registry operations -/

/-- The id-generation loop of `register_client` (lines 187-192): starting at
`counter`, try `"client" + str(counter)` and keep incrementing while the id
is taken in the room.  The Python loop runs without fuel; `room.length + 1`
candidates always suffice (proved below), so the fuel-exhaustion fallback is
never reached. -/
def genClientId (room : Room) : Nat → Nat → String × Nat
  | 0, counter => ("client" ++ Nat.repr counter, counter)
  | fuel + 1, counter =>
    let cid := "client" ++ Nat.repr counter
    if dictHasKey room cid then genClientId room fuel (counter + 1) else (cid, counter)

/-- `register_client` (lines 161-203).  Fails (error write, result
`"ERROR"`) when the room does not exist; generates a fresh counter-suffixed
id only when the requested name is the sentinel `"client"`; inserts the
session with status `"NEW"`.  The surrounding `try/except` never fires in
the model because none of the performed operations raises. -/
def register_client (st : ServerState) (cw : Nat) (client_name chat_room : String) :
    ServerState × List Write × String :=
  let client_id := client_name
  if ¬ dictHasKey st.client_list chat_room then
    let msg := "Chat room " ++ chat_room ++ " does not exist. Please add it first."
    let r := send_error_and_close st cw msg client_id
    (r.1, r.2, "ERROR")
  else
    let room := (dictGet? st.client_list chat_room).getD []
    let idAndCounter :=
      if client_id == "client" then
        genClientId room (room.length + 1) (st.client_id_counter + 1)
      else (client_id, st.client_id_counter)
    -- the source re-checks `chat_room not in self.client_list` here; dead
    -- code under the guard above, so the room is reused as fetched
    let room2 := dictSet room idAndCounter.1 (.session { writer := cw, status := "NEW" })
    ({ st with client_list := dictSet st.client_list chat_room room2,
               client_id_counter := idAndCounter.2 },
     [], idAndCounter.1)

/-- Iteration body of `pause_client` (lines 582-586): walk the rooms in
order, set the status of every session stored under `client_id` to
`"PAUSED"`, collecting the room names; a raw-string entry raises `TypeError`
(string item assignment) and stops the iteration, keeping the mutations made
so far. -/
def pauseLoop (client_id : String) : ClientList → ClientList × List String × Option PyErr
  | [] => ([], [], none)
  | (rn, room) :: rest =>
    match dictGet? room client_id with
    | none =>
      let r := pauseLoop client_id rest
      ((rn, room) :: r.1, r.2.1, r.2.2)
    | some (.session s) =>
      let room2 := dictSet room client_id (.session { writer := s.writer, status := "PAUSED" })
      let r := pauseLoop client_id rest
      ((rn, room2) :: r.1, rn :: r.2.1, r.2.2)
    | some (.str _) =>
      ((rn, room) :: rest, [],
       some (.typeError "str object does not support item assignment"))

/-- `pause_client` (lines 569-589): pauses the client in every room holding
it and reports the affected rooms, or that the client was found nowhere. -/
def pause_client (st : ServerState) (client_id : String) :
    ServerState × Except PyErr String :=
  let r := pauseLoop client_id st.client_list
  ({ st with client_list := r.1 },
   match r.2.2 with
   | some e => .error e
   | none =>
     if r.2.1.isEmpty then
       .ok ("Client " ++ client_id ++ " not found in any chat rooms")
     else
       .ok ("Client " ++ client_id ++ " paused in rooms: " ++ String.intercalate ", " r.2.1))

/-- Iteration of `writer_iterator` + the per-recipient writes of
`send_to_all_clients` (lines 786-843): write the message to every session
whose status is `"CONNECTED"` or `"ACTIVE"`; per-recipient transport errors
are swallowed.  A raw-string entry raises `TypeError` inside the generator,
which the outer `except` of `send_to_all_clients` catches, aborting the
remaining deliveries but keeping the writes already made. -/
def broadcastLoop (full_message : String) : Room → List Write
  | [] => []
  | (_, .str _) :: _ => []
  | (_, .session s) :: rest =>
    if s.status == "CONNECTED" || s.status == "ACTIVE" then
      (s.writer, full_message) :: broadcastLoop full_message rest
    else broadcastLoop full_message rest

/-- `send_to_all_clients(self, message_data, chat_room)` (lines 806-843):
broadcasts `MSG <message_data>` to the eligible members of `chat_room`.
Note the parameter order of the source signature: `message_data` FIRST,
`chat_room` second. A missing room yields no writes. -/
def send_to_all_clients (st : ServerState) (message_data chat_room : String) : List Write :=
  let full_message := "MSG " ++ message_data
  match dictGet? st.client_list chat_room with
  | none => []
  | some room => broadcastLoop full_message room

/-- `join_chatroom` (lines 591-628): error write when the room is missing,
otherwise inserts/overwrites the session with status `"NEW"` and broadcasts
the join announcement (keyword call, so the broadcast arguments are in the
correct order here). -/
def join_chatroom (st : ServerState) (chat_room client_id : String) (cw : Nat) :
    ServerState × List Write × String :=
  if ¬ dictHasKey st.client_list chat_room then
    let msg := "Chat room " ++ chat_room ++ " can not be joined because it does not exist."
    (st, send_error_to_writer msg cw, msg)
  else
    let room := (dictGet? st.client_list chat_room).getD []
    let room2 := dictSet room client_id (.session { writer := cw, status := "NEW" })
    let st2 := { st with client_list := dictSet st.client_list chat_room room2 }
    let announcement := "Client " ++ client_id ++ " has joined Chat room " ++ chat_room
    (st2, send_to_all_clients st2 announcement chat_room, announcement)

/-- `add_chatroom` (lines 630-665): refuses `"main"` and existing rooms (the
refusal is delivered through `send_error_to_client`, which raises `KeyError`
whenever the addressed room/client pair is not registered); otherwise
creates the room containing the creator with status `"NEW"` and writes the
success `MSG` to the creator. -/
def add_chatroom (st : ServerState) (chat_room client_id : String) (cw : Nat) :
    Except PyErr (ServerState × List Write × String) := do
  if chat_room == "main" then
    let msg := "ERROR: You cannot create the main chat room"
    let ws ← send_error_to_client st msg chat_room client_id
    return (st, ws, msg)
  if dictHasKey st.client_list chat_room then
    let msg := "ERROR: Chat Room " ++ chat_room ++ " already exists."
    let ws ← send_error_to_client st msg chat_room client_id
    return (st, ws, msg)
  let room2 : Room := [(client_id, .session { writer := cw, status := "NEW" })]
  let st2 := { st with client_list := dictSet st.client_list chat_room room2 }
  let msg := "MSG Chatroom " ++ chat_room ++ " was successfully created by " ++ client_id ++ "."
  return (st2, send_to_client msg cw, msg)

/-- `close_client` (lines 667-700).  `client_list` is keyed by ROOM name, so
the guard tests whether a room named `client_id` exists; when none does the
function returns without touching anything.  When such a room exists, the
raw string `"CLOSING"` is stored under its `"status"` key, then the lookup
of its `"writer"` key either raises `KeyError` (caught by the outer
`except`, leaving `"CLOSING"` behind) or yields a value whose `.write` call
raises `AttributeError` (caught by the inner `except`), after which the raw
status becomes `"CLOSED"`; `client_count` is decremented on both of those
paths.  No farewell bytes are ever successfully written and no entry is ever
removed. -/
def close_client (st : ServerState) (client_id : String) : ServerState :=
  match dictGet? st.client_list client_id with
  | none => st
  | some room =>
    let room1 := dictSet room "status" (.str "CLOSING")
    match dictGet? room1 "writer" with
    | none =>
      { st with client_list := dictSet st.client_list client_id room1,
                client_count := st.client_count - 1 }
    | some _ =>
      let room2 := dictSet room1 "status" (.str "CLOSED")
      { st with client_list := dictSet st.client_list client_id room2,
                client_count := st.client_count - 1 }

/-! ## Python string primitives (structural, kernel-evaluable) -/

/-- Python `str.split(sep)` for a one-character separator, on the character
list: `""` gives `[""]`, n separators give n+1 fields. -/
def splitOnChar (sep : Char) : List Char → List (List Char)
  | [] => [[]]
  | c :: rest =>
    if c = sep then [] :: splitOnChar sep rest
    else
      match splitOnChar sep rest with
      | [] => [[c]]
      | g :: gs => (c :: g) :: gs

/-- Python `str.split(sep)` for a one-character separator. -/
def pySplit (sep : Char) (s : String) : List String :=
  (splitOnChar sep s.data).map (fun l => String.mk l)

/-- The ASCII whitespace characters Python `str.strip()` removes. -/
def isPySpace (c : Char) : Bool :=
  c = ' ' || c = '\t' || c = '\n' || c = '\r' || c = '\x0b' || c = '\x0c'

/-- Python `str.strip()` (ASCII domain). -/
def pyStrip (s : String) : String :=
  String.mk (((s.data.dropWhile isPySpace).reverse.dropWhile isPySpace).reverse)

/-- Python `str.upper()` (ASCII domain). -/
def pyUpper (s : String) : String :=
  String.mk (s.data.map Char.toUpper)

/-- Python `str.lower()` (ASCII domain). -/
def pyLower (s : String) : String :=
  String.mk (s.data.map Char.toLower)

/-- Python `str.replace(a, b)` for one-character arguments. -/
def pyReplaceChar (a b : Char) (s : String) : String :=
  String.mk (s.data.map (fun c => if c = a then b else c))

/-! ## Listings -/

/-- Status read `client_data["status"]` on a room entry: a raw-string entry
raises `TypeError` (string subscript). -/
def statusOfEntry : Entry → Except PyErr String
  | .session s => .ok s.status
  | .str _ => .error (.typeError "string indices must be integers")

/-- Inner loop of the `"ALL"` case of `list_chatrooms` (lines 459-461). -/
def listAllClients : Room → Except PyErr String
  | [] => .ok ""
  | (cid, e) :: rest => do
    let st ← statusOfEntry e
    let restS ← listAllClients rest
    return "\t\t+Client:" ++ cid ++ "\t\t\t+Status:" ++ st ++ restS

/-- Outer loop of the `"ALL"` case of `list_chatrooms` (lines 457-461). -/
def listAllRooms : ClientList → Except PyErr String
  | [] => .ok ""
  | (rn, room) :: rest => do
    let inner ← listAllClients room
    let restS ← listAllRooms rest
    return "\t-" ++ rn ++ "\n" ++ inner ++ restS

/-- `list_chatrooms` (lines 436-494), the prose-formatted listing.  The
optional arguments model the Python keyword defaults (`None`); the `LIST`
dispatch never passes `chat_room`.  Note the default `match` case: an
unrecognised `list_type` falls through to `return list_msg`, the bare
header. -/
def list_chatrooms (st : ServerState) (list_type : String)
    (client_id chat_room : Option String) : Except PyErr String :=
  let base := "Chat Room List"
  match list_type with
  | "ALL" => do
    let body ← listAllRooms st.client_list
    return base ++ " With Clients and Status:\n" ++ body
  | "CHAT_ROOMS" =>
    .ok (base ++ ":\n" ++ String.join (st.client_list.map (fun p => "\t-" ++ p.1 ++ "\n")))
  | "CHAT_ROOM_AND_CLIENTS" =>
    .ok (base ++ " With Clients:\n" ++
      String.join (st.client_list.map (fun p =>
        "\t-" ++ p.1 ++ "\n" ++ String.join (p.2.map (fun q => "\t\t+" ++ q.1 ++ "\n")))))
  | "CLIENT_CHAT_ROOMS" =>
    match client_id with
    | none => .ok "Client does not exist."
    | some cid =>
      .ok (base ++ "For Client " ++ cid ++ ":\n" ++
        String.join ((st.client_list.filter (fun p => dictHasKey p.2 cid)).map
          (fun p => "\t-" ++ p.1 ++ "\n")))
  | "CLIENTS_FOR_CHAT_ROOM" =>
    -- `self.client_list[chat_room]` raises KeyError for a missing room and
    -- for the default `None`, discarding the partly built message
    match chat_room with
    | none => .error (.keyError "None")
    | some r =>
      match dictGet? st.client_list r with
      | none => .error (.keyError r)
      | some room =>
        .ok (base ++ " of Clients belonging to " ++ r ++
          String.join (room.map (fun q => "\t-" ++ q.1 ++ "\n")))
  | _ => .ok base

/-- Python values built by `list_chatrooms_as_dict`. -/
inductive PyVal where
  | str (s : String)
  | vnone
  | list (xs : List PyVal)
  | dict (fields : List (String × PyVal))

/-- Inner loop of the `"ALL"` case of `list_chatrooms_as_dict`
(lines 519-523). -/
def listAllClientsDict : Room → Except PyErr (List (String × PyVal))
  | [] => .ok []
  | (cid, e) :: rest => do
    let st ← statusOfEntry e
    let r ← listAllClientsDict rest
    return (cid, PyVal.dict [("client_id", .str cid), ("status", .str st)]) :: r

/-- Outer loop of the `"ALL"` case of `list_chatrooms_as_dict`
(lines 517-523). -/
def listAllRoomsDict : ClientList → Except PyErr (List (String × PyVal))
  | [] => .ok []
  | (rn, room) :: rest => do
    let inner ← listAllClientsDict room
    let r ← listAllRoomsDict rest
    return (rn, PyVal.dict inner) :: r

/-- `list_chatrooms_as_dict` (lines 496-567), the structured listing.  The
unmatched default returns the explicit error dict. -/
def list_chatrooms_as_dict (st : ServerState) (list_type : String)
    (client_id chat_room : Option String) : Except PyErr PyVal :=
  let typeStr := pyReplaceChar '_' ' ' (pyLower list_type)
  match list_type with
  | "ALL" => do
    let rooms ← listAllRoomsDict st.client_list
    return .dict [("type", .str typeStr), ("chatroom_list", .dict rooms)]
  | "CHAT_ROOMS" =>
    .ok (.dict [("type", .str typeStr),
      ("chatroom_list", .dict (st.client_list.map (fun p => (p.1, PyVal.dict []))))])
  | "CHAT_ROOM_AND_CLIENTS" =>
    .ok (.dict [("type", .str typeStr),
      ("chatroom_list", .dict (st.client_list.map (fun p =>
        (p.1, PyVal.dict [("client_list", .list (p.2.map (fun q => PyVal.str q.1)))]))))])
  | "CLIENT_CHAT_ROOMS" =>
    match client_id with
    | none =>
      .ok (.dict [("error", .str "Client ID required for CLIENT_CHAT_ROOMS listing"),
                  ("status", .str "FAILED")])
    | some cid =>
      .ok (.dict [("type", .str typeStr), ("client_id", .str cid),
        ("chat_rooms", .list ((st.client_list.filter (fun p => dictHasKey p.2 cid)).map
          (fun p => PyVal.str p.1)))])
  | "CLIENTS_FOR_CHAT_ROOM" =>
    let nameVal := match chat_room with | none => PyVal.vnone | some r => PyVal.str r
    let clients : List PyVal :=
      match chat_room with
      | none => []
      | some r =>
        match dictGet? st.client_list r with
        | none => []
        | some room => room.map (fun q => PyVal.str q.1)
    .ok (.dict [("type", .str typeStr), ("chatroom_list", .dict []),
                ("chat_room_name", nameVal), ("client_list", .list clients)])
  | _ => .ok (.dict [("error", .str "Invalid list type"), ("type", .str list_type)])

/-! ## Protocol codec: the per-connection frame reads -/

/-- Python `str(b)` of a bytes value whose content is printable ASCII
without quotes or backslashes: the repr `b'...'`. -/
def pyBytesRepr (s : String) : String := "b\x27" ++ s ++ "\x27"

/-- Header-field parsing of `client_callback` (lines 243-257): starting from
the defaults `("main", "client")`, the raw bytes read up to the space are
passed through `str(...)` (the bytes REPR, not the decoded text), stripped,
and split on `":"`; only a split into exactly two parts overwrites the
defaults.  `client_chatroom_data` is the decoded content of those bytes. -/
def parseRoomClient (client_chatroom_data : String) : String × String :=
  if client_chatroom_data.length != 0 then
    match pySplit ':' (pyStrip (pyBytesRepr client_chatroom_data)) with
    | [a, b] => (a, b)
    | _ => ("main", "client")
  else ("main", "client")

/-- Outcome of the validation prologue of `client_callback`. -/
inductive PreludeResult where
  | rejectedUnknown
  | rejectedCapacity
  | proceed (message_name : String)
deriving DecidableEq, Repr

/-- Validation prologue of `client_callback` (lines 217-241): increment
`client_count`, decode/strip/uppercase the verb, reject unknown verbs, THEN
reject when `client_count` exceeds `max_clients`; both rejections write the
error, close, and decrement the count once more inside the handler (on top
of the decrement `send_error_and_close` already performs). -/
def callbackPrelude (st : ServerState) (message_identifier : String) (cw : Nat) :
    ServerState × List Write × PreludeResult :=
  let st0 := { st with client_count := st.client_count + 1 }
  let message_name := pyUpper (pyStrip message_identifier)
  if ¬ message_name ∈ ALLOWED_SERVER_COMMANDS then
    let msg := "ERROR: The " ++ message_name ++
      " command is not a valid command, the client connection will be closed"
    let r := send_error_and_close st0 cw msg "Unknown"
    ({ r.1 with client_count := r.1.client_count - 1 }, r.2, .rejectedUnknown)
  else if st0.client_count > (st0.max_clients : Int) then
    let msg := "ERROR: The maximum number of clients has been reached. " ++
      "No more clients are allowed, the client connection will be closed"
    let r := send_error_and_close st0 cw msg "Unknown"
    ({ r.1 with client_count := r.1.client_count - 1 }, r.2, .rejectedCapacity)
  else (st0, [], .proceed message_name)

/-! ## Command processor -/

/-- Command dispatch of `client_callback` (lines 314-434), entered after the
prologue succeeded with the parsed `(chat_room, client_id)` header and the
body `message_data`.  Returns the state after the command and the writes
performed.  Unhandled exceptions from a dispatch case are caught by the
outer handler, which sends `Command processing failed: <e>` and closes. -/
def processCommand (st : ServerState) (message_name chat_room client_id message_data : String)
    (cw : Nat) : ServerState × List Write :=
  match message_name with
  | "HELLO" =>
    let r := register_client st cw client_id chat_room
    (r.1, r.2.1)
  | "SEND" =>
    if ¬ dictHasKey st.client_list chat_room then
      send_error_and_close st cw
        "ERROR: You have not registered or joined this chat room yet, please say HELLO or JOIN first."
        client_id
    else
      let room := (dictGet? st.client_list chat_room).getD []
      if ¬ dictHasKey room client_id then
        send_error_and_close st cw
          "ERROR: You have not registered or joined this chat room yet, please say HELLO or JOIN first."
          client_id
      else
        match dictGet? room client_id with
        | some (.session s) =>
          let st2 :=
            match s.status with
            | "NEW" =>
              { st with client_list := (dictSet st.client_list chat_room
                  (dictSet room client_id (.session { writer := s.writer, status := "CONNECTED" }))) }
            | "CONNECTED" =>
              { st with client_list := (dictSet st.client_list chat_room
                  (dictSet room client_id (.session { writer := s.writer, status := "ACTIVE" }))) }
            | "PAUSED" =>
              { st with client_list := (dictSet st.client_list chat_room
                  (dictSet room client_id (.session { writer := s.writer, status := "ACTIVE" }))) }
            | _ => st
          -- source line 349: `await self.send_to_all_clients(chat_room, message_data)`
          -- is a POSITIONAL call against the signature (message_data, chat_room)
          (st2, send_to_all_clients st2 chat_room message_data)
        | some (.str _) =>
          -- reading ["status"] of a raw-string entry raises TypeError, which
          -- is not a KeyError, so the OUTER handler of the dispatch fires
          send_error_and_close st cw
            ("Command processing failed: " ++ pyErrMsg (.typeError "string indices must be integers"))
            client_id
        | none =>
          -- unreachable: the membership guard above ensures a stored entry
          (st, [])
  | "PAUSE" =>
    let r := pause_client st client_id
    match r.2 with
    | .ok _ => (r.1, [])
    | .error e => send_error_and_close r.1 cw ("Pause failed: " ++ pyErrMsg e) client_id
  | "ERROR" =>
    send_error_and_close st cw message_data client_id
  | "NEW" =>
    match add_chatroom st chat_room client_id cw with
    | .ok r => (r.1, r.2.1)
    | .error e =>
      send_error_and_close st cw ("Room creation failed: " ++ pyErrMsg e) client_id
  | "JOIN" =>
    let r := join_chatroom st chat_room client_id cw
    (r.1, r.2.1)
  | "LIST" =>
    match list_chatrooms st message_data (some client_id) none with
    | .ok _ => (st, [])
    | .error e => (st, send_error_to_writer ("List failed: " ++ pyErrMsg e) cw)
  | "QUIT" =>
    (close_client st client_id, [])
  | _ =>
    -- `FROM`, `MSG` and anything else: no `case` matches; the `match`
    -- statement falls through and the handler returns
    (st, [])

/-! ## Association-list lemmas -/

theorem dictHasKey_eq_mem {α : Type} (d : List (String × α)) (r : String) :
    dictHasKey d r = true ↔ r ∈ dictKeys d := by
  simp only [dictHasKey, dictKeys, List.any_eq_true, List.mem_map, beq_iff_eq]

theorem dictGet?_isSome {α : Type} (d : List (String × α)) (k : String) :
    (dictGet? d k).isSome = dictHasKey d k := by
  induction d with
  | nil => rfl
  | cons p rest ih =>
    by_cases h : p.1 = k
    · simp [dictGet?, dictHasKey, List.find?, List.any, h]
    · have hb : (p.1 == k) = false := beq_false_of_ne h
      simp only [dictGet?, dictHasKey, List.find?, List.any, hb, Bool.false_or]
      exact ih

theorem dictGet?_overwrite {α : Type} (d : List (String × α)) (k : String) (v : α)
    (r : String) :
    dictGet? (d.map (fun p => if p.1 == k then (k, v) else p)) r =
      if r = k then (if dictHasKey d k then some v else none) else dictGet? d r := by
  induction d with
  | nil => by_cases hr : r = k <;> simp [dictGet?, dictHasKey, hr]
  | cons p rest ih =>
    by_cases hp : p.1 = k
    · have hb : (p.1 == k) = true := beq_iff_eq.mpr hp
      by_cases hr : r = k
      · subst hr
        simp [dictGet?, dictHasKey, List.find?, List.any, hb]
      · have hkr : (k == r) = false := beq_false_of_ne (fun he => hr he.symm)
        have hpr : (p.1 == r) = false := beq_false_of_ne (hp ▸ fun he => hr he.symm)
        simp only [List.map_cons, hb, if_true, dictGet?, List.find?, hkr, hpr, if_neg hr] at *
        exact ih
    · have hb : (p.1 == k) = false := beq_false_of_ne hp
      by_cases hq : p.1 = r
      · have hbr : (p.1 == r) = true := beq_iff_eq.mpr hq
        have hr : ¬ r = k := fun he => hp (hq.symm ▸ he ▸ rfl)
        simp [dictGet?, List.find?, hb, hbr, if_neg hr]
      · have hbr : (p.1 == r) = false := beq_false_of_ne hq
        have hhead : (if (p.1 == k) = true then ((k, v) : String × α) else p) = p := by
          simp [hb]
        have step : ∀ (xs : List (String × α)), dictGet? (p :: xs) r = dictGet? xs r := by
          intro xs; simp [dictGet?, List.find?, hbr]
        have hkcons : dictHasKey (p :: rest) k = dictHasKey rest k := by
          simp [dictHasKey, List.any, hb]
        rw [List.map_cons, hhead,
            step (List.map (fun q => if q.1 == k then (k, v) else q) rest),
            step rest, hkcons]
        exact ih

theorem dictGet?_append_one {α : Type} (d : List (String × α)) (k : String) (v : α)
    (r : String) :
    dictGet? (d ++ [(k, v)]) r =
      match dictGet? d r with
      | some x => some x
      | none => if r = k then some v else none := by
  induction d with
  | nil =>
    by_cases hr : r = k
    · subst hr; simp [dictGet?, List.find?]
    · have : (k == r) = false := beq_false_of_ne (fun he => hr he.symm)
      simp [dictGet?, List.find?, this, if_neg hr]
  | cons p rest ih =>
    by_cases hq : p.1 = r
    · have hbr : (p.1 == r) = true := beq_iff_eq.mpr hq
      simp [dictGet?, List.find?, hbr]
    · have hbr : (p.1 == r) = false := beq_false_of_ne hq
      simp only [List.cons_append, dictGet?, List.find?, hbr] at *
      exact ih

theorem dictGet?_dictSet_self {α : Type} (d : List (String × α)) (k : String) (v : α) :
    dictGet? (dictSet d k v) k = some v := by
  unfold dictSet
  by_cases h : dictHasKey d k
  · rw [if_pos h, dictGet?_overwrite, if_pos rfl, if_pos h]
  · rw [if_neg h, dictGet?_append_one]
    have : dictGet? d k = none := by
      cases hx : dictGet? d k with
      | none => rfl
      | some x =>
        exfalso
        apply h
        rw [← dictGet?_isSome, hx]
        rfl
    rw [this]
    simp

theorem dictGet?_dictSet_ne {α : Type} (d : List (String × α)) (k : String) (v : α)
    (r : String) (hr : r ≠ k) : dictGet? (dictSet d k v) r = dictGet? d r := by
  unfold dictSet
  by_cases h : dictHasKey d k
  · rw [if_pos h, dictGet?_overwrite, if_neg hr]
  · rw [if_neg h, dictGet?_append_one]
    cases hx : dictGet? d r with
    | some x => rfl
    | none => simp [if_neg hr]

theorem dictKeys_dictSet {α : Type} (d : List (String × α)) (k : String) (v : α) :
    dictKeys (dictSet d k v) =
      if dictHasKey d k then dictKeys d else dictKeys d ++ [k] := by
  unfold dictSet
  by_cases h : dictHasKey d k
  · rw [if_pos h, if_pos h]
    unfold dictKeys
    rw [List.map_map]
    apply List.map_congr_left
    intro p _
    by_cases hp : p.1 = k
    · simp [Function.comp, hp]
    · have hb : (p.1 == k) = false := beq_false_of_ne hp
      simp [Function.comp, hb]
  · rw [if_neg h, if_neg h]
    simp [dictKeys]

theorem dictHasKey_dictSet {α : Type} (d : List (String × α)) (k : String) (v : α)
    (r : String) :
    dictHasKey (dictSet d k v) r = true ↔ (dictHasKey d r = true ∨ r = k) := by
  rw [dictHasKey_eq_mem, dictKeys_dictSet]
  by_cases h : dictHasKey d k
  · rw [if_pos h]
    rw [← dictHasKey_eq_mem]
    constructor
    · exact Or.inl
    · rintro (hr | rfl)
      · exact hr
      · exact h
  · rw [if_neg h]
    simp [← dictHasKey_eq_mem]

/-! ## Decimal representation: `str(n)` is injective -/

/-- Value of a most-significant-first decimal digit string. -/
def digitsVal : List Char → Nat
  | [] => 0
  | c :: cs => (c.toNat - 48) * 10 ^ cs.length + digitsVal cs

theorem digitChar_toNat (r : Nat) (h : r < 10) : (Nat.digitChar r).toNat = 48 + r := by
  interval_cases r <;> decide

theorem digitsVal_toDigitsCore (fuel : Nat) :
    ∀ n ds, n < fuel →
      digitsVal (Nat.toDigitsCore 10 fuel n ds) = n * 10 ^ ds.length + digitsVal ds := by
  induction fuel with
  | zero => intro n ds h; omega
  | succ f ih =>
    intro n ds h
    rw [Nat.toDigitsCore]
    by_cases h0 : n / 10 = 0
    · rw [if_pos h0]
      have hlt : n % 10 < 10 := Nat.mod_lt _ (by norm_num)
      have hn : n % 10 = n := by omega
      show ((Nat.digitChar (n % 10)).toNat - 48) * 10 ^ ds.length + digitsVal ds
          = n * 10 ^ ds.length + digitsVal ds
      rw [digitChar_toNat _ hlt]
      have h48 : 48 + n % 10 - 48 = n % 10 := by omega
      rw [h48, hn]
    · rw [if_neg h0]
      have hn10 : n / 10 < f := by omega
      rw [ih (n / 10) (Nat.digitChar (n % 10) :: ds) hn10]
      have hlt : n % 10 < 10 := Nat.mod_lt _ (by norm_num)
      simp only [digitsVal, List.length_cons, digitChar_toNat _ hlt, pow_succ]
      have h48 : (48 + n % 10 - 48) = n % 10 := by omega
      rw [h48]
      have hsplit : n / 10 * (10 ^ ds.length * 10) = (n / 10 * 10) * 10 ^ ds.length := by
        ring
      rw [hsplit]
      have hcombine : n / 10 * 10 * 10 ^ ds.length + (n % 10 * 10 ^ ds.length + digitsVal ds)
          = (n / 10 * 10 + n % 10) * 10 ^ ds.length + digitsVal ds := by ring
      rw [hcombine]
      congr 2
      omega

theorem digitsVal_toDigits (n : Nat) : digitsVal (Nat.toDigits 10 n) = n := by
  rw [Nat.toDigits, digitsVal_toDigitsCore (n + 1) n [] (Nat.lt_succ_self n)]
  simp [digitsVal]

theorem natRepr_injective : Function.Injective Nat.repr := by
  intro m n h
  have hd : (Nat.toDigits 10 m) = (Nat.toDigits 10 n) := by
    have := congrArg String.data h
    simpa [Nat.repr, List.asString] using this
  have := congrArg digitsVal hd
  rwa [digitsVal_toDigits, digitsVal_toDigits] at this

theorem clientCandidate_injective :
    Function.Injective (fun i : Nat => "client" ++ Nat.repr i) := by
  intro a b h
  apply natRepr_injective
  have := congrArg String.data h
  simp only [String.data_append] at this
  exact String.ext (List.append_cancel_left this)

/-! ## Freshness of generated client ids -/

theorem genClientId_fresh (room : Room) :
    ∀ fuel counter,
      (∃ i, i < fuel ∧ dictHasKey room ("client" ++ Nat.repr (counter + i)) = false) →
      dictHasKey room (genClientId room fuel counter).1 = false := by
  intro fuel
  induction fuel with
  | zero => intro counter h; obtain ⟨i, hi, _⟩ := h; omega
  | succ f ih =>
    intro counter h
    rw [genClientId]
    by_cases hc : dictHasKey room ("client" ++ Nat.repr counter)
    · rw [if_pos hc]
      apply ih
      obtain ⟨i, hi, hfree⟩ := h
      cases i with
      | zero => simp only [Nat.add_zero] at hfree; rw [hfree] at hc; cases hc
      | succ j =>
        refine ⟨j, by omega, ?_⟩
        have : counter + 1 + j = counter + (j + 1) := by omega
        rw [this]
        exact hfree
    · rw [if_neg hc]
      simpa using eq_false_of_ne_true hc

theorem exists_fresh_candidate (room : Room) (counter : Nat) :
    ∃ i, i < room.length + 1 ∧
      dictHasKey room ("client" ++ Nat.repr (counter + i)) = false := by
  by_contra hcon
  push_neg at hcon
  have htaken : ∀ i, i < room.length + 1 →
      dictHasKey room ("client" ++ Nat.repr (counter + i)) = true := by
    intro i hi
    have := hcon i hi
    cases hx : dictHasKey room ("client" ++ Nat.repr (counter + i)) with
    | true => rfl
    | false => exact absurd hx this
  -- the `room.length + 1` distinct candidate ids would all be keys of a
  -- dict with only `room.length` entries
  let f : Nat → String := fun i => "client" ++ Nat.repr (counter + i)
  have hinj : Function.Injective f := by
    intro a b hab
    have := clientCandidate_injective hab
    omega
  let C : List String := (List.range (room.length + 1)).map f
  have hnodup : C.Nodup := (List.nodup_range _).map hinj
  have hlen : C.length = room.length + 1 := by simp [C]
  have hsub : ∀ x ∈ C, x ∈ dictKeys room := by
    intro x hx
    simp only [C, List.mem_map, List.mem_range] at hx
    obtain ⟨i, hi, rfl⟩ := hx
    exact (dictHasKey_eq_mem room _).mp (htaken i hi)
  have hcard1 : C.toFinset.card = room.length + 1 := by
    rw [List.toFinset_card_of_nodup hnodup, hlen]
  have hcard2 : C.toFinset ⊆ (dictKeys room).toFinset := by
    intro x hx
    rw [List.mem_toFinset] at hx ⊢
    exact hsub x hx
  have hcard3 : (dictKeys room).toFinset.card ≤ room.length := by
    calc (dictKeys room).toFinset.card ≤ (dictKeys room).length := List.toFinset_card_le _
      _ = room.length := by simp [dictKeys]
  have := Finset.card_le_card hcard2
  omega

theorem genClientId_result_fresh (room : Room) (counter : Nat) :
    dictHasKey room (genClientId room (room.length + 1) counter).1 = false :=
  genClientId_fresh room (room.length + 1) counter (exists_fresh_candidate room counter)

/-! ## Key-set preservation and the default-room invariant -/

theorem dictGet?_eq_none_of_not_hasKey {α : Type} (d : List (String × α)) (k : String)
    (h : dictHasKey d k = false) : dictGet? d k = none := by
  cases hx : dictGet? d k with
  | none => rfl
  | some x =>
    have hs := dictGet?_isSome d k
    rw [hx, h] at hs
    cases hs

theorem hasKey_of_dictGet?_some {α : Type} (d : List (String × α)) (k : String) (v : α)
    (h : dictGet? d k = some v) : dictHasKey d k = true := by
  have hs := dictGet?_isSome d k
  rw [h] at hs
  exact hs.symm

/-- Absence of the default room from the registry. -/
def noMainRoom (s : ServerState) : Prop :=
  dictHasKey s.client_list "main" = false

theorem noMain_dictSet_existing (cl : ClientList) (k : String) (v : Room)
    (hk : dictHasKey cl k = true) (h : dictHasKey cl "main" = false) :
    dictHasKey (dictSet cl k v) "main" = false := by
  cases hx : dictHasKey (dictSet cl k v) "main" with
  | false => rfl
  | true =>
    rcases (dictHasKey_dictSet cl k v "main").mp hx with hm | rfl
    · rw [hm] at h; cases h
    · rw [hk] at h; cases h

theorem noMain_setRoomRawStatus (cl : ClientList) (cid v : String)
    (h : dictHasKey cl "main" = false) :
    dictHasKey (setRoomRawStatus cl cid v) "main" = false := by
  unfold setRoomRawStatus
  cases hx : dictGet? cl cid with
  | none => exact h
  | some room => exact noMain_dictSet_existing cl cid _ (hasKey_of_dictGet?_some cl cid room hx) h

theorem noMain_send_error_and_close (s : ServerState) (cw : Nat) (msg cid : String)
    (h : noMainRoom s) : noMainRoom (send_error_and_close s cw msg cid).1 := by
  unfold noMainRoom send_error_and_close at *
  exact noMain_setRoomRawStatus _ cid "CLOSED" (noMain_setRoomRawStatus _ cid "ERROR" h)

theorem noMain_register_client (s : ServerState) (cw : Nat) (name room : String)
    (h : noMainRoom s) : noMainRoom (register_client s cw name room).1 := by
  unfold register_client
  by_cases hr : dictHasKey s.client_list room = true
  · rw [if_neg (by simp [hr])]
    exact noMain_dictSet_existing _ _ _ hr h
  · rw [if_pos hr]
    exact noMain_send_error_and_close s cw
      ("Chat room " ++ room ++ " does not exist. Please add it first.") name h

theorem dictKeys_pauseLoop (cid : String) (cl : ClientList) :
    dictKeys (pauseLoop cid cl).1 = dictKeys cl := by
  induction cl with
  | nil => rfl
  | cons p rest ih =>
    obtain ⟨rn, room⟩ := p
    rw [pauseLoop]
    cases hx : dictGet? room cid with
    | none => exact congrArg (List.cons rn) ih
    | some e =>
      cases e with
      | session s => exact congrArg (List.cons rn) ih
      | str v => rfl

theorem noMain_pause_client (s : ServerState) (cid : String)
    (h : noMainRoom s) : noMainRoom (pause_client s cid).1 := by
  unfold noMainRoom pause_client at *
  cases hx : dictHasKey (pauseLoop cid s.client_list).1 "main" with
  | false => rfl
  | true =>
    rw [dictHasKey_eq_mem, dictKeys_pauseLoop, ← dictHasKey_eq_mem] at hx
    rw [hx] at h
    cases h

theorem noMain_join_chatroom (s : ServerState) (room cid : String) (cw : Nat)
    (h : noMainRoom s) : noMainRoom (join_chatroom s room cid cw).1 := by
  unfold join_chatroom
  by_cases hr : dictHasKey s.client_list room = true
  · rw [if_neg (by simp [hr])]
    exact noMain_dictSet_existing _ _ _ hr h
  · rw [if_pos hr]
    exact h

theorem noMain_add_chatroom (s s2 : ServerState) (room cid : String) (cw : Nat)
    (ws : List Write) (msg : String)
    (hok : add_chatroom s room cid cw = .ok (s2, ws, msg))
    (h : noMainRoom s) : noMainRoom s2 := by
  unfold noMainRoom at h ⊢
  unfold add_chatroom at hok
  by_cases hm : room = "main"
  · subst hm
    simp only [beq_self_eq_true, if_pos] at hok
    cases hctc : send_error_to_client s "ERROR: You cannot create the main chat room" "main" cid with
    | error e => rw [hctc] at hok; cases hok
    | ok w =>
      rw [hctc] at hok
      simp only [Except.bind, pure, Except.pure] at hok
      cases hok
      exact h
  · have hbm : (room == "main") = false := beq_false_of_ne hm
    simp only [hbm, Bool.false_eq_true, if_false] at hok
    by_cases hex : dictHasKey s.client_list room = true
    · simp only [hex, if_pos] at hok
      cases hctc : send_error_to_client s ("ERROR: Chat Room " ++ room ++ " already exists.") room cid with
      | error e => rw [hctc] at hok; cases hok
      | ok w =>
        rw [hctc] at hok
        simp only [Except.bind, pure, Except.pure] at hok
        cases hok
        exact h
    · have hex2 : dictHasKey s.client_list room = false := eq_false_of_ne_true hex
      simp only [hex2, Bool.false_eq_true, if_false, pure, Except.pure] at hok
      cases hok
      show dictHasKey (dictSet s.client_list room _) "main" = false
      cases hx : dictHasKey (dictSet s.client_list room
          [(cid, .session { writer := cw, status := "NEW" })]) "main" with
      | false => rfl
      | true =>
        rcases (dictHasKey_dictSet _ _ _ _).mp hx with hmm | hmm
        · rw [hmm] at h; cases h
        · exact absurd hmm.symm hm

theorem noMain_close_client (s : ServerState) (cid : String)
    (h : noMainRoom s) : noMainRoom (close_client s cid) := by
  unfold noMainRoom at h ⊢
  unfold close_client
  cases hx : dictGet? s.client_list cid with
  | none => exact h
  | some room =>
    have hk := hasKey_of_dictGet?_some _ _ _ hx
    dsimp only
    cases hw : dictGet? (dictSet room "status" (.str "CLOSING")) "writer" with
    | none => exact noMain_dictSet_existing _ _ _ hk h
    | some w => exact noMain_dictSet_existing _ _ _ hk h

theorem noMain_callbackPrelude (s : ServerState) (ident : String) (cw : Nat)
    (h : noMainRoom s) : noMainRoom (callbackPrelude s ident cw).1 := by
  unfold callbackPrelude
  by_cases hv : pyUpper (pyStrip ident) ∈ ALLOWED_SERVER_COMMANDS
  · rw [if_neg (by simp [hv])]
    by_cases hc : s.client_count + 1 > (s.max_clients : Int)
    · rw [if_pos hc]
      exact noMain_send_error_and_close { s with client_count := s.client_count + 1 } cw
        ("ERROR: The maximum number of clients has been reached. " ++
          "No more clients are allowed, the client connection will be closed") "Unknown" h
    · rw [if_neg hc]
      exact h
  · rw [if_pos hv]
    exact noMain_send_error_and_close { s with client_count := s.client_count + 1 } cw
      ("ERROR: The " ++ ident.trim.toUpper ++
        " command is not a valid command, the client connection will be closed") "Unknown" h

theorem noMain_processCommand (st : ServerState) (verb room cid body : String) (cw : Nat)
    (h : noMainRoom st) : noMainRoom (processCommand st verb room cid body cw).1 := by
  unfold processCommand
  split
  · -- HELLO
    exact noMain_register_client st cw cid room h
  · -- SEND
    by_cases h1 : dictHasKey st.client_list room = true
    · rw [if_neg (by simp [h1])]
      by_cases h2 : dictHasKey ((dictGet? st.client_list room).getD []) cid = true
      · rw [if_neg (by simp [h2])]
        cases hx : dictGet? ((dictGet? st.client_list room).getD []) cid with
        | none => exact h
        | some e =>
          cases e with
          | str v =>
            exact noMain_send_error_and_close st cw
              ("Command processing failed: " ++ pyErrMsg (.typeError "string indices must be integers")) cid h
          | session s =>
            dsimp only
            split
            · exact noMain_dictSet_existing _ _ _ h1 h
            · exact noMain_dictSet_existing _ _ _ h1 h
            · exact noMain_dictSet_existing _ _ _ h1 h
            · exact h
      · rw [if_pos h2]
        exact noMain_send_error_and_close st cw
          "ERROR: You have not registered or joined this chat room yet, please say HELLO or JOIN first."
          cid h
    · rw [if_pos h1]
      exact noMain_send_error_and_close st cw
        "ERROR: You have not registered or joined this chat room yet, please say HELLO or JOIN first."
        cid h
  · -- PAUSE
    dsimp only
    cases hx : (pause_client st cid).2 with
    | ok m => exact noMain_pause_client st cid h
    | error e =>
      exact noMain_send_error_and_close (pause_client st cid).1 cw
        ("Pause failed: " ++ pyErrMsg e) cid (noMain_pause_client st cid h)
  · -- ERROR
    exact noMain_send_error_and_close st cw body cid h
  · -- NEW
    cases hx : add_chatroom st room cid cw with
    | ok r =>
      obtain ⟨s2, ws, msg⟩ := r
      exact noMain_add_chatroom st s2 room cid cw ws msg hx h
    | error e =>
      exact noMain_send_error_and_close st cw ("Room creation failed: " ++ pyErrMsg e) cid h
  · -- JOIN
    exact noMain_join_chatroom st room cid cw h
  · -- LIST
    cases hx : list_chatrooms st body (some cid) none with
    | ok m => exact h
    | error e => exact h
  · -- QUIT
    exact noMain_close_client st cid h
  · -- FROM / MSG / anything else
    exact h

/-! ## Reachable server states -/

/-- States reachable from a freshly constructed server through the
operations of the protocol engine (every registry mutation of the wire
protocol and of the facade boundary goes through one of these). -/
inductive Reachable : ServerState → Prop
  | init (host port : String) (mc mml : Nat) (ssl : Option Bool) (cert : Option String)
      (s : ServerState) : chatServerInit host port mc mml ssl cert = .ok s → Reachable s
  | register (s : ServerState) (cw : Nat) (name room : String) :
      Reachable s → Reachable (register_client s cw name room).1
  | addRoom (s s2 : ServerState) (room cid : String) (cw : Nat) (ws : List Write)
      (msg : String) :
      Reachable s → add_chatroom s room cid cw = .ok (s2, ws, msg) → Reachable s2
  | join (s : ServerState) (room cid : String) (cw : Nat) :
      Reachable s → Reachable (join_chatroom s room cid cw).1
  | pause (s : ServerState) (cid : String) :
      Reachable s → Reachable (pause_client s cid).1
  | close (s : ServerState) (cid : String) :
      Reachable s → Reachable (close_client s cid)
  | errClose (s : ServerState) (cw : Nat) (msg cid : String) :
      Reachable s → Reachable (send_error_and_close s cw msg cid).1
  | prologue (s : ServerState) (ident : String) (cw : Nat) :
      Reachable s → Reachable (callbackPrelude s ident cw).1
  | command (s : ServerState) (verb room cid body : String) (cw : Nat) :
      Reachable s → Reachable (processCommand s verb room cid body cw).1

theorem reachable_noMain (s : ServerState) (hr : Reachable s) : noMainRoom s := by
  induction hr with
  | init host port mc mml ssl cert s h =>
    unfold chatServerInit at h
    by_cases hc : (ssl.isSome && cert.isNone) = true
    all_goals
      unfold noMainRoom
      first
      | (rw [if_pos hc] at h; cases h)
      | (rw [if_neg hc] at h; cases h; rfl)
  | register s cw name room _ ih => exact noMain_register_client s cw name room ih
  | addRoom s s2 room cid cw ws msg _ hok ih =>
    exact noMain_add_chatroom s s2 room cid cw ws msg hok ih
  | join s room cid cw _ ih => exact noMain_join_chatroom s room cid cw ih
  | pause s cid _ ih => exact noMain_pause_client s cid ih
  | close s cid _ ih => exact noMain_close_client s cid ih
  | errClose s cw msg cid _ ih => exact noMain_send_error_and_close s cw msg cid ih
  | prologue s ident cw _ ih => exact noMain_callbackPrelude s ident cw ih
  | command s verb room cid body cw _ ih => exact noMain_processCommand s verb room cid body cw ih

/-! ## Concrete states used to evaluate the code -/

/-- A server state with the default configuration and a given registry. -/
def mkState (cl : ClientList) (count : Int) : ServerState :=
  { use_ssl := none, cert_path := none, host := "127.0.0.1", port := "10010",
    client_list := cl, client_id_counter := 1, client_count := count,
    max_clients := 100, max_message_length := 255 }

/-- Room `lobby` with a `PAUSED` sender `alice` (writer 1) and an `ACTIVE`
peer `bob` (writer 2). -/
def sendBugState : ServerState :=
  mkState [("lobby", [("alice", .session { writer := 1, status := "PAUSED" }),
                      ("bob", .session { writer := 2, status := "ACTIVE" })])] 2

/-- Room `lobby` with a single registered client `alice` (status NEW). -/
def oneClientState : ServerState :=
  mkState [("lobby", [("alice", .session { writer := 1, status := "NEW" })])] 1

/-- A server at its configured connection cap. -/
def fullState : ServerState := mkState [] 100

/-! ## Claim theorems -/

/-- C10: constructing a `ChatServer` with `cert_path` absent raises
`RuntimeError` for EVERY non-`None` `use_ssl`, including `use_ssl = False`:
the check is `use_ssl is not None and cert_path is None`. -/
theorem C10_init_requires_cert (host port : String) (mc mml : Nat) (b : Bool) :
    chatServerInit host port mc mml (some b) none =
      .error (.runtimeError "You cannot use SSL without providing a certfiicate by path.") := rfl

/-- C9: a connection whose verb is `FROM` or `MSG` passes the
allowed-command validation, but no dispatch case exists for it: the registry
is left completely unchanged and nothing is written to the client. -/
theorem C9_from_msg_noop (st : ServerState) (room cid body : String) (cw : Nat) :
    "FROM" ∈ ALLOWED_SERVER_COMMANDS ∧ "MSG" ∈ ALLOWED_SERVER_COMMANDS ∧
    processCommand st "FROM" room cid body cw = (st, []) ∧
    processCommand st "MSG" room cid body cw = (st, []) :=
  ⟨by decide, by decide, rfl, rfl⟩

/-- C3: the code splits `str(client_chatroom_data)` — the Python REPR of the
raw bytes, `b'...'` — instead of the decoded text, so a well-formed header
field `main:client2 ` decodes to room `b'main` and client `client2 '`
(quote characters included) instead of `("main", "client2")`; a field
without a single colon still falls back to the defaults without aborting. -/
theorem C3_header_parse_eval :
    parseRoomClient "main:client2 " = ("b\x27main", "client2 \x27") ∧
    parseRoomClient "garbage " = ("main", "client") ∧
    parseRoomClient "a:b:c " = ("main", "client") := by decide

/-- C5: `close_client` tests the client id against `client_list`, which is
keyed by ROOM name: for a client `alice` registered in room `lobby` the
guard fails and the function returns having changed nothing — no `CLOSING`
or `CLOSED` transition, no farewell write, and `alice` remains a member of
`lobby`, contradicting the claim that the session is transitioned and
removed from every room. -/
theorem C5_close_noop_eval :
    close_client oneClientState "alice" = oneClientState ∧
    dictGet? ((dictGet? (close_client oneClientState "alice").client_list "lobby").getD [])
      "alice" = some (.session { writer := 1, status := "NEW" }) := by decide

/-- C1: an accepted `SEND` from `PAUSED` `alice` in `lobby` with body `hi`
does set her status to `ACTIVE`, but the dispatch calls
`send_to_all_clients(chat_room, message_data)` POSITIONALLY against the
signature `(message_data, chat_room)`, so the code broadcasts the text
`lobby` to the room named `hi`: no frame at all is written — in particular
the `ACTIVE` peer `bob` never receives `MSG hi`. -/
theorem C1_send_from_paused_eval :
    dictGet? ((dictGet? (processCommand sendBugState "SEND" "lobby" "alice" "hi" 1).1.client_list
        "lobby").getD []) "alice" = some (.session { writer := 1, status := "ACTIVE" }) ∧
    (processCommand sendBugState "SEND" "lobby" "alice" "hi" 1).2 = [] := by decide

/-- C2 counterexample: a freshly constructed server has an EMPTY registry —
the room `"main"` is not present, refuting the claim that every reachable
state contains it. -/
theorem C2_fresh_server_lacks_main :
    (chatServerInit "127.0.0.1" "10010" 100 255 none none).map
      (fun s => dictHasKey s.client_list "main") = .ok false := rfl

/-- C4 counterexample: `alice` already names a session in `lobby`, yet
`register_client` returns the requested id `alice` unchanged (overwriting
the session) — only the sentinel `"client"` triggers fresh-id generation,
refuting the claim that a colliding requested id gets a freshly generated
counter-suffixed id. -/
theorem C4_collision_not_refreshed :
    dictHasKey ((dictGet? oneClientState.client_list "lobby").getD []) "alice" = true ∧
    (register_client oneClientState 2 "alice" "lobby").2.2 = "alice" := by decide

/-- C6 counterexample: with the connection count already above the cap, a
frame with unknown verb `FOO` is rejected as an unknown command, NOT with
the capacity error — the verb check runs first, refuting the claim that
capacity is rejected before any verb-specific validation. -/
theorem C6_unknown_beats_capacity :
    fullState.client_count + 1 > (fullState.max_clients : Int) ∧
    (callbackPrelude fullState "FOO " 1).2.2 = .rejectedUnknown ∧
    (callbackPrelude fullState "FOO " 1).2.2 ≠ .rejectedCapacity := by decide

/-- C7 counterexample: the prose-formatted listing returns the bare header
`Chat Room List` — a non-error, header-only result — for the unsupported
list kind `FOO`, refuting the claim that unsupported kinds always yield an
explicit error value. -/
theorem C7_unsupported_kind_header_only :
    list_chatrooms oneClientState "FOO" none none = .ok "Chat Room List" := rfl

theorem dictHasKey_dictSet_self {α : Type} (d : List (String × α)) (k : String) (v : α) :
    dictHasKey (dictSet d k v) k = true :=
  hasKey_of_dictGet?_some _ _ _ (dictGet?_dictSet_self d k v)

/-- C2 (amended): in every reachable state the registry does NOT contain the
room `"main"` — the fresh registry is empty, no operation ever inserts the
protected name, and `add_chatroom` on `"main"` never creates anything: it
takes the protected-room branch, whose error delivery raises `KeyError`
because the addressed room does not exist. -/
theorem C2_main_never_in_registry (s : ServerState) (hr : Reachable s) :
    dictHasKey s.client_list "main" = false ∧
    ∀ (cid : String) (cw : Nat), add_chatroom s "main" cid cw = .error (.keyError "main") := by
  have h := reachable_noMain s hr
  refine ⟨h, ?_⟩
  intro cid cw
  unfold add_chatroom send_error_to_client
  rw [dictGet?_eq_none_of_not_hasKey _ _ h]
  rfl

/-- C2 witness: the freshly constructed default server is reachable, lacks
`"main"`, and `add_chatroom` on `"main"` raises. -/
theorem C2_main_never_in_registry_witness :
    dictHasKey (mkState [] 0).client_list "main" = false ∧
    add_chatroom (mkState [] 0) "main" "alice" 1 = .error (.keyError "main") :=
  have h := C2_main_never_in_registry (mkState [] 0)
    (Reachable.init "127.0.0.1" "10010" 100 255 none none (mkState [] 0) rfl)
  ⟨h.1, h.2 "alice" 1⟩

/-- C6 (amended): the verb vocabulary is validated FIRST — an unknown verb
is rejected as an unknown command even when the connection count exceeds the
configured maximum; only for allowed verbs is capacity checked (before the
header or body are touched), and under the cap processing proceeds. -/
theorem C6_validation_order (st : ServerState) (ident : String) (cw : Nat) :
    (pyUpper (pyStrip ident) ∉ ALLOWED_SERVER_COMMANDS →
      (callbackPrelude st ident cw).2.2 = .rejectedUnknown) ∧
    (pyUpper (pyStrip ident) ∈ ALLOWED_SERVER_COMMANDS →
      st.client_count + 1 > (st.max_clients : Int) →
      (callbackPrelude st ident cw).2.2 = .rejectedCapacity) ∧
    (pyUpper (pyStrip ident) ∈ ALLOWED_SERVER_COMMANDS →
      st.client_count + 1 ≤ (st.max_clients : Int) →
      (callbackPrelude st ident cw).2.2 = .proceed (pyUpper (pyStrip ident))) := by
  refine ⟨?_, ?_, ?_⟩
  · intro h
    unfold callbackPrelude
    rw [if_pos h]
  · intro h hcap
    unfold callbackPrelude
    rw [if_neg (by simp [h]), if_pos hcap]
  · intro h hcap
    unfold callbackPrelude
    rw [if_neg (by simp [h]), if_neg (not_lt.mpr hcap)]

/-- C6 witness: over capacity, the unknown verb `FOO` is rejected as
unknown, and the allowed verb `SEND` is rejected for capacity. -/
theorem C6_validation_order_witness :
    (callbackPrelude fullState "FOO " 1).2.2 = .rejectedUnknown ∧
    (callbackPrelude fullState "SEND " 1).2.2 = .rejectedCapacity :=
  ⟨(C6_validation_order fullState "FOO " 1).1 (by decide),
   (C6_validation_order fullState "SEND " 1).2.1 (by decide) (by decide)⟩

/-- C7 (amended): an unsupported list kind yields the explicit error dict in
the structured listing, but the prose-formatted listing returns the bare
header `Chat Room List`; `CLIENT_CHAT_ROOMS` without a client id yields an
explicit error only in the dict shape (the prose shape returns the string
`Client does not exist.`); `CLIENTS_FOR_CHAT_ROOM` without its room raises
`KeyError` in the prose shape and returns a NON-error result with an empty
client list in the dict shape. -/
theorem C7_list_error_shapes (st : ServerState) (kind : String)
    (h : kind ∉ (["ALL", "CHAT_ROOMS", "CHAT_ROOM_AND_CLIENTS", "CLIENT_CHAT_ROOMS",
        "CLIENTS_FOR_CHAT_ROOM"] : List String)) :
    list_chatrooms_as_dict st kind none none =
      .ok (.dict [("error", .str "Invalid list type"), ("type", .str kind)]) ∧
    list_chatrooms st kind none none = .ok "Chat Room List" ∧
    list_chatrooms_as_dict st "CLIENT_CHAT_ROOMS" none none =
      .ok (.dict [("error", .str "Client ID required for CLIENT_CHAT_ROOMS listing"),
                  ("status", .str "FAILED")]) ∧
    list_chatrooms st "CLIENT_CHAT_ROOMS" none none = .ok "Client does not exist." ∧
    list_chatrooms st "CLIENTS_FOR_CHAT_ROOM" none none = .error (.keyError "None") ∧
    list_chatrooms_as_dict st "CLIENTS_FOR_CHAT_ROOM" none none =
      .ok (.dict [("type", .str "clients for chat room"), ("chatroom_list", .dict []),
                  ("chat_room_name", .vnone), ("client_list", .list [])]) := by
  refine ⟨?_, ?_, rfl, rfl, rfl, rfl⟩
  · unfold list_chatrooms_as_dict
    split
    all_goals first | rfl | simp_all
  · unfold list_chatrooms
    split
    all_goals first | rfl | simp_all

/-- C7 witness: evaluation at the unsupported kind `FOO`. -/
theorem C7_list_error_shapes_witness :
    list_chatrooms_as_dict oneClientState "FOO" none none =
      .ok (.dict [("error", .str "Invalid list type"), ("type", .str "FOO")]) ∧
    list_chatrooms oneClientState "FOO" none none = .ok "Chat Room List" :=
  have h := C7_list_error_shapes oneClientState "FOO" (by decide)
  ⟨h.1, h.2.1⟩

/-- The status transition the `SEND` dispatch applies (stream.py lines
335-347): `NEW → CONNECTED`, `CONNECTED → ACTIVE`, `PAUSED → ACTIVE`, and
every other status (in particular `ACTIVE`) is left unchanged because no
`case` of the `match` fires. -/
def sendStatusStep (status : String) : String :=
  match status with
  | "NEW" => "CONNECTED"
  | "CONNECTED" => "ACTIVE"
  | "PAUSED" => "ACTIVE"
  | _ => status

/-- C8: processing an accepted `SEND` for a registered session rewrites the
session status through `sendStatusStep`, which maps `NEW` to `CONNECTED`,
`CONNECTED` to `ACTIVE`, `PAUSED` to `ACTIVE`, and keeps `ACTIVE` at
`ACTIVE`. -/
theorem C8_send_status_transition (st : ServerState) (room cid body : String) (cw : Nat)
    (s : Session)
    (h1 : dictHasKey st.client_list room = true)
    (h2 : dictGet? ((dictGet? st.client_list room).getD []) cid = some (.session s)) :
    dictGet? ((dictGet? (processCommand st "SEND" room cid body cw).1.client_list room).getD [])
        cid = some (.session { writer := s.writer, status := sendStatusStep s.status }) ∧
    sendStatusStep "NEW" = "CONNECTED" ∧ sendStatusStep "CONNECTED" = "ACTIVE" ∧
    sendStatusStep "PAUSED" = "ACTIVE" ∧ sendStatusStep "ACTIVE" = "ACTIVE" := by
  refine ⟨?_, rfl, rfl, rfl, rfl⟩
  have h2k : dictHasKey ((dictGet? st.client_list room).getD []) cid = true :=
    hasKey_of_dictGet?_some _ _ _ h2
  unfold processCommand
  rw [if_neg (by simp [h1]), if_neg (by simp [h2k]), h2]
  split
  · rename_i heq; exact absurd heq (by decide)
  · dsimp only
    split
    · rename_i heq
      dsimp only
      rw [dictGet?_dictSet_self]
      dsimp only [Option.getD]
      rw [dictGet?_dictSet_self, heq]
      rfl
    · rename_i heq
      dsimp only
      rw [dictGet?_dictSet_self]
      dsimp only [Option.getD]
      rw [dictGet?_dictSet_self, heq]
      rfl
    · rename_i heq
      dsimp only
      rw [dictGet?_dictSet_self]
      dsimp only [Option.getD]
      rw [dictGet?_dictSet_self, heq]
      rfl
    · rw [h2]
      have hstep : sendStatusStep s.status = s.status := by
        unfold sendStatusStep
        split
        all_goals simp_all
      rw [hstep]
  · rename_i heq; exact absurd heq (by decide)
  · rename_i heq; exact absurd heq (by decide)
  · rename_i heq; exact absurd heq (by decide)
  · rename_i heq; exact absurd heq (by decide)
  · rename_i heq; exact absurd heq (by decide)
  · rename_i heq; exact absurd heq (by decide)
  · rename_i hA hB hC hD hE hF hG hH
    exact absurd rfl hB

/-- C8 witness: the `PAUSED` sender `alice` is `ACTIVE` after an accepted
`SEND`. -/
theorem C8_send_status_transition_witness :
    dictGet? ((dictGet? (processCommand sendBugState "SEND" "lobby" "alice" "hello" 7).1.client_list
        "lobby").getD []) "alice" = some (.session { writer := 1, status := "ACTIVE" }) :=
  (C8_send_status_transition sendBugState "lobby" "alice" "hello" 7
    { writer := 1, status := "PAUSED" } (by decide) (by decide)).1

/-- Equations for a sentinel registration in an existing room: the returned
id is the one produced by the generation loop, and the registry gains the
session under that id. -/
theorem register_sentinel_parts (st : ServerState) (cw : Nat) (room : String)
    (h : dictHasKey st.client_list room = true) :
    (register_client st cw "client" room).2.2
        = (genClientId ((dictGet? st.client_list room).getD [])
            (((dictGet? st.client_list room).getD []).length + 1) (st.client_id_counter + 1)).1 ∧
    (register_client st cw "client" room).1.client_list
        = dictSet st.client_list room
            (dictSet ((dictGet? st.client_list room).getD [])
              (genClientId ((dictGet? st.client_list room).getD [])
                (((dictGet? st.client_list room).getD []).length + 1)
                (st.client_id_counter + 1)).1
              (.session { writer := cw, status := "NEW" })) := by
  unfold register_client
  rw [if_neg (by simp [h])]
  exact ⟨rfl, rfl⟩

/-- C4 (amended): `register` fails when the room is absent; a requested id
other than the sentinel `"client"` is used UNCHANGED — even when it already
names a session, which is silently overwritten — and inserted with status
`NEW`; only the sentinel triggers generation of a counter-suffixed id that
is fresh for the room, so two successive sentinel registrations in the same
room return distinct ids. -/
theorem C4_register_spec (st : ServerState) (cw1 cw2 : Nat) (name room : String) :
    (dictHasKey st.client_list room = false →
      (register_client st cw1 name room).2.2 = "ERROR") ∧
    (dictHasKey st.client_list room = true → name ≠ "client" →
      (register_client st cw1 name room).2.2 = name ∧
      dictGet? ((dictGet? (register_client st cw1 name room).1.client_list room).getD []) name
        = some (.session { writer := cw1, status := "NEW" })) ∧
    (dictHasKey st.client_list room = true →
      dictHasKey ((dictGet? st.client_list room).getD [])
        (register_client st cw1 "client" room).2.2 = false ∧
      dictGet? ((dictGet? (register_client st cw1 "client" room).1.client_list room).getD [])
        (register_client st cw1 "client" room).2.2
        = some (.session { writer := cw1, status := "NEW" }) ∧
      (register_client (register_client st cw1 "client" room).1 cw2 "client" room).2.2
        ≠ (register_client st cw1 "client" room).2.2) := by
  refine ⟨?_, ?_, ?_⟩
  · intro h
    unfold register_client
    rw [if_pos (by simp [h])]
  · intro h hname
    have hbeq : (name == "client") = false := beq_false_of_ne hname
    unfold register_client
    rw [if_neg (by simp [h])]
    rw [hbeq]
    simp only [Bool.false_eq_true, if_false]
    refine ⟨trivial, ?_⟩
    rw [dictGet?_dictSet_self]
    dsimp only [Option.getD]
    rw [dictGet?_dictSet_self]
  · intro h
    obtain ⟨hid1, hcl1⟩ := register_sentinel_parts st cw1 room h
    have hfresh1 := genClientId_result_fresh ((dictGet? st.client_list room).getD [])
      (st.client_id_counter + 1)
    refine ⟨?_, ?_, ?_⟩
    · rw [hid1]
      exact hfresh1
    · rw [hid1, hcl1]
      rw [dictGet?_dictSet_self]
      dsimp only [Option.getD]
      rw [dictGet?_dictSet_self]
    · -- the second sentinel registration sees a room that now contains the
      -- first generated id, and returns an id fresh for that room
      have h2 : dictHasKey (register_client st cw1 "client" room).1.client_list room = true := by
        rw [hcl1]
        exact dictHasKey_dictSet_self _ _ _
      obtain ⟨hid2, _⟩ := register_sentinel_parts (register_client st cw1 "client" room).1 cw2 room h2
      have hroom2 : (dictGet? (register_client st cw1 "client" room).1.client_list room).getD []
          = dictSet ((dictGet? st.client_list room).getD [])
              (register_client st cw1 "client" room).2.2
              (.session { writer := cw1, status := "NEW" }) := by
        rw [hcl1, dictGet?_dictSet_self, hid1]
        rfl
      have hfresh2 := genClientId_result_fresh
        ((dictGet? (register_client st cw1 "client" room).1.client_list room).getD [])
        ((register_client st cw1 "client" room).1.client_id_counter + 1)
      rw [← hid2] at hfresh2
      intro hcontra
      rw [hcontra, hroom2] at hfresh2
      rw [dictHasKey_dictSet_self] at hfresh2
      cases hfresh2

/-- C4 witness: in a room already holding `alice`, a non-sentinel request
keeps its name, and a sentinel request gets an id fresh for the room. -/
theorem C4_register_spec_witness :
    (register_client oneClientState 2 "zed" "lobby").2.2 = "zed" ∧
    dictHasKey ((dictGet? oneClientState.client_list "lobby").getD [])
      (register_client oneClientState 3 "client" "lobby").2.2 = false :=
  ⟨((C4_register_spec oneClientState 2 9 "zed" "lobby").2.1 (by decide) (by decide)).1,
   ((C4_register_spec oneClientState 3 9 "client" "lobby").2.2 (by decide)).1⟩
